import Mathlib

/-!
# MoodleUpdater — shallow embedding and verification

This file embeds the orchestration core of the MoodleUpdater repository
(`moodle_updater.py` and `modules/{moodle_backup, system_monitor,
application_setup}.py`) into Lean and proves or refutes the frozen claims
about it.

Conventions of the embedding:
* Python integers are `ℤ` (or `ℕ` for counters), real-valued clock times and
  sleep intervals are `ℚ`.
* Each stateful loop is embedded as a step function on an explicit state
  record, mirroring the source's sequence of assignments; loops over a trace
  of observed samples become folds over a list.
* Log calls become events accumulated in a list.
* Behaviour that depends on an external process is parametrised by the
  process's observable outcome (exit ok / raised), exactly at the points where
  the source inspects it.
-/

namespace MoodleUpdater

/-! ## Orchestrator: operation selection, concurrency plan, summary
    (source: `moodle_updater.py`, `main`) -/

/-- The three long-running operations `main` can launch concurrently. -/
inductive Op : Type
  | backup
  | dump
  | clone
deriving DecidableEq, Fintype, Repr

/-- The `multithreading` flag of `main`: it is set to `True` exactly in the
three branches that spawn two worker threads
(`dir_backup and db_dump and git_clone`, `dir_backup and db_dump`,
`db_dump and git_clone`). -/
def multithreading (dirBackup dbDump gitClone : Bool) : Bool :=
  if dirBackup && dbDump && gitClone then true
  else if dirBackup && dbDump then true
  else if dbDump && gitClone then true
  else false

/-- The concurrency plan `main` executes, as a list of threads, each thread a
list of operations run sequentially in source order.

* all three selected: one thread runs `dir_backup_and_git_clone` (backup then
  clone), a second thread runs `db_dump`;
* backup and dump: one thread each;
* dump and clone: one thread each;
* otherwise: the selected operations run sequentially on the main thread, in
  the order backup, dump, clone. -/
def plan (dirBackup dbDump gitClone : Bool) : List (List Op) :=
  if dirBackup && dbDump && gitClone then [[Op.backup, Op.clone], [Op.dump]]
  else if dirBackup && dbDump then [[Op.backup], [Op.dump]]
  else if dbDump && gitClone then [[Op.dump], [Op.clone]]
  else [(if dirBackup then [Op.backup] else []) ++
        (if dbDump then [Op.dump] else []) ++
        (if gitClone then [Op.clone] else [])]

/-- A schedule assigns to every operation a start and stop wall-clock time. -/
structure Sched where
  start : Op → ℚ
  stop : Op → ℚ

/-- A thread executes its operations in list order: each operation finishes
before the next starts. -/
def threadOk (s : Sched) (t : List Op) : Prop :=
  List.Chain' (fun x y => s.stop x ≤ s.start y) t

/-- A schedule is a possible execution of a plan: every thread runs its
operations in order, and every operation's interval is well formed.  Threads
are otherwise unconstrained against each other (preemptive OS threads). -/
def validSched (p : List (List Op)) (s : Sched) : Prop :=
  (∀ t ∈ p, threadOk s t) ∧ ∀ o, s.start o ≤ s.stop o

instance (s : Sched) (t : List Op) : Decidable (threadOk s t) :=
  inferInstanceAs (Decidable (List.Chain' _ t))

instance (p : List (List Op)) (s : Sched) : Decidable (validSched p s) :=
  inferInstanceAs (Decidable ((∀ t ∈ p, threadOk s t) ∧ ∀ o, s.start o ≤ s.stop o))

/-- Two operations' intervals overlap in a schedule. -/
def overlaps (s : Sched) (x y : Op) : Prop :=
  s.start x < s.stop y ∧ s.start y < s.stop x

instance (s : Sched) (x y : Op) : Decidable (overlaps s x y) :=
  inferInstanceAs (Decidable (_ ∧ _))

/-- Runtime summary of `main` (lines 954–978): each recorded per-operation
runtime is logged and kept; an unset (`None`) or zero runtime is replaced by
`0`; the "time saved" figure is logged only under `multithreading`. -/
def normRuntime : Option ℤ → ℤ
  | none => 0
  | some v => v

/-- The "Time saved with multithreading" report of `main`:
`runtime_backup + runtime_dump + runtime_clone - runtime`, logged only when
`multithreading` is set. `none` means the line is not logged at all. -/
def timeSavedReport (dirBackup dbDump gitClone : Bool)
    (runtimeBackup runtimeDump runtimeClone : Option ℤ) (runtime : ℤ) :
    Option ℤ :=
  if multithreading dirBackup dbDump gitClone then
    some (normRuntime runtimeBackup + normRuntime runtimeDump +
          normRuntime runtimeClone - runtime)
  else none

/-! ## ResourceMonitor: `SystemMonitor.monitor_memory_usage`
    (source: `modules/system_monitor.py`, lines 95–172; the single-file
    variant in `moodle_updater.py` lines 437–514 is textually identical) -/

/-- The Python locals of `monitor_memory_usage` that survive from one loop
iteration to the next.  `sleep_time` is a plain local: each iteration may
overwrite it, and a branch that assigns nothing leaves the previous
iteration's value in place (on the first iteration it is unassigned; the
embedding seeds it with `0`, a value the source can never read, because the
final `if`/`elif`/`else` chain always assigns `sleep_time` on the first
iteration). -/
structure MemState where
  previousCritical : Bool
  previousWarning : Bool
  previousLowFreeCritical : Bool
  previousLowFreeWarning : Bool
  sleepTime : ℚ
deriving DecidableEq, Repr

/-- State of the monitor before its first loop iteration. -/
def memInit : MemState :=
  { previousCritical := false
    previousWarning := false
    previousLowFreeCritical := false
    previousLowFreeWarning := false
    sleepTime := 0 }

/-- One log event of `monitor_memory_usage`, tagged with the values the
source interpolates into the message. -/
inductive MemEvent : Type
  | criticalMemoryWarning (available : ℤ)
  | recoveryFromCritical (available : ℤ)
  | lowMemoryWarning (available : ℤ)
  | recoveryAboveWarning (available : ℤ)
  | lowFreeCritical (free available : ℤ)
  | recoveryFreeFromCritical (free : ℤ)
  | lowFreeWarning (free available : ℤ)
  | recoveryFree (free : ℤ)
  | debugMemoryStats
deriving DecidableEq, Repr

/-- One iteration of the `monitor_memory_usage` loop on a memory sample with
the given `free` and `available` megabyte figures.  The four
`if`/`elif` blocks execute in sequence; each reads the flags as updated by the
blocks before it (Python locals), and each assignment to `sleep_time` within
an iteration overwrites the earlier ones, so the value that reaches
`time.sleep` is the last one assigned (or, when no block assigns, the value
left over from the previous iteration). -/
def memStep (s : MemState) (free available : ℤ) : MemState × List MemEvent :=
  -- === CRITICAL MEMORY STATE === / RECOVERY: Exiting Critical State
  let block1 : Bool × Option ℚ × List MemEvent :=
    if available < 250 then
      (true, some (1 / 2), [MemEvent.criticalMemoryWarning available])
    else if s.previousCritical ∧ 250 ≤ available then
      (false, none, [MemEvent.recoveryFromCritical available])
    else (s.previousCritical, none, [])
  let previousCritical := block1.1
  -- === WARNING MEMORY STATE === / RECOVERY: Exiting Warning State
  let block2 : Bool × Option ℚ × List MemEvent :=
    if available < 500 then
      (true, some 1,
        if ¬s.previousWarning ∧ ¬previousCritical then
          [MemEvent.lowMemoryWarning available]
        else [])
    else if s.previousWarning ∧ 500 ≤ available then
      (false, none, [MemEvent.recoveryAboveWarning available])
    else (s.previousWarning, none, [])
  let previousWarning := block2.1
  -- === CRITICAL: FREE MEMORY EXTREMELY LOW === / RECOVERY
  let block3 : Bool × Option ℚ × List MemEvent :=
    if free < 125 ∧ 500 < available then
      (true, some (1 / 2), [MemEvent.lowFreeCritical free available])
    else if s.previousLowFreeCritical ∧ 125 ≤ free then
      (false, none, [MemEvent.recoveryFreeFromCritical free])
    else (s.previousLowFreeCritical, none, [])
  let previousLowFreeCritical := block3.1
  -- === FREE MEMORY LOW === / RECOVERY / === NORMAL STATE ===
  let block4 : Bool × Option ℚ × List MemEvent :=
    if free < 250 ∧ 500 < available then
      (true, some 2,
        if ¬s.previousLowFreeWarning then
          [MemEvent.lowFreeWarning free available]
        else [])
    else if s.previousLowFreeWarning ∧ 250 ≤ free then
      (false, none, [MemEvent.recoveryFree free])
    else (s.previousLowFreeWarning, some 5, [])
  let previousLowFreeWarning := block4.1
  let sleepTime :=
    ((block4.2.1 <|> block3.2.1 <|> block2.2.1 <|> block1.2.1).getD s.sleepTime)
  ({ previousCritical := previousCritical
     previousWarning := previousWarning
     previousLowFreeCritical := previousLowFreeCritical
     previousLowFreeWarning := previousLowFreeWarning
     sleepTime := sleepTime },
   block1.2.2 ++ block2.2.2 ++ block3.2.2 ++ block4.2.2 ++
     [MemEvent.debugMemoryStats])

/-- Run the memory monitor over a trace of `(free, available)` samples,
accumulating all log events in order. -/
def memRun (s : MemState) : List (ℤ × ℤ) → MemState × List MemEvent
  | [] => (s, [])
  | sample :: rest =>
    let step := memStep s sample.1 sample.2
    let tail := memRun step.1 rest
    (tail.1, step.2 ++ tail.2)

/-- Is an event the "entering critical available-memory state" log? -/
def isEnterCritical : MemEvent → Bool
  | MemEvent.criticalMemoryWarning _ => true
  | _ => false

/-- Is an event the "recovered from critical available-memory state" log? -/
def isRecoveryFromCritical : MemEvent → Bool
  | MemEvent.recoveryFromCritical _ => true
  | _ => false

/-! ## Database dump: `MoodleBackupManager.db_dump`
    (source: `modules/moodle_backup.py`, lines 71–117) -/

/-- Observable outcome of the body of `db_dump`'s `try` block when not in dry
run: the `open(dump_file, "w")` / `subprocess.run(..., check=True)` pair either
succeeds, raises `IOError`/`OSError` at `open`, or raises
`CalledProcessError` from `mysqldump`. -/
inductive DumpOutcome : Type
  | ok
  | ioError
  | processError
deriving DecidableEq, Repr

/-- The externally visible actions of one `db_dump` call, in program order. -/
inductive DumpEvent : Type
  | startMonitoring      -- `monitor.start_monitoring(...)`: spawns both monitor threads
  | logDryRunCommand     -- `[Dry Run] Would run: ...`
  | runMysqldump         -- the `subprocess.run(dump_args, ...)` call
  | logDumpSaved         -- `Database dump saved in ...`
  | logFileError         -- `Failed to open ... for writing`
  | logProcessError      -- `Database dump failed: ...`
  | setStopEvent         -- `stop_monitoring`: `self.stop_event.set()`
  | joinMemoryThread     -- `stop_monitoring`: `self.memory_thread.join()`
  | joinDumpThread       -- `stop_monitoring`: `self.dump_thread.join()`
  | setRuntimeDump       -- `self.runtime_dump = int(time.time() - start)`
deriving DecidableEq, Repr

/-- The event sequence of `SystemMonitor.stop_monitoring` (source:
`modules/system_monitor.py`, lines 184–191): set the shared stop flag, then
join the memory thread, then join the dump-progress thread. -/
def stopMonitoringEvents : List DumpEvent :=
  [DumpEvent.setStopEvent, DumpEvent.joinMemoryThread, DumpEvent.joinDumpThread]

/-- The event trace of one `db_dump` call.  Monitoring starts before the
`try`; the `finally` clause runs `monitor.stop_monitoring()` on every exit
path — after the `try` body on success, and after the `except` handler's
logging but before its early `return` on either error; the
`self.runtime_dump = ...` assignment after the `try` statement is reached
only when no exception occurred. -/
def dbDumpTrace (dryRun : Bool) (outcome : DumpOutcome) : List DumpEvent :=
  DumpEvent.startMonitoring ::
    (if dryRun then
      [DumpEvent.logDryRunCommand] ++ stopMonitoringEvents ++ [DumpEvent.setRuntimeDump]
    else
      match outcome with
      | DumpOutcome.ok =>
          [DumpEvent.runMysqldump, DumpEvent.logDumpSaved] ++ stopMonitoringEvents ++
            [DumpEvent.setRuntimeDump]
      | DumpOutcome.ioError =>
          [DumpEvent.logFileError] ++ stopMonitoringEvents
      | DumpOutcome.processError =>
          [DumpEvent.runMysqldump, DumpEvent.logProcessError] ++ stopMonitoringEvents)

/-- Whether a `db_dump` call records its runtime (`self.runtime_dump` is
assigned), i.e. whether its trace reaches `setRuntimeDump`. -/
def dbDumpRecordsRuntime (dryRun : Bool) (outcome : DumpOutcome) : Bool :=
  (dbDumpTrace dryRun outcome).contains DumpEvent.setRuntimeDump

/-- `MoodleBackupManager.dir_backup` (lines 34–69) records its runtime
unconditionally: the `rsync` `CalledProcessError` is caught and only logged,
and `self.runtime_backup = int(time.time() - start)` follows the
`try`/`except` statement on every path.  `rsyncOk` is the rsync outcome;
it does not influence the assignment. -/
def dirBackupRecordsRuntime (dryRun rsyncOk : Bool) : Bool :=
  (fun _ _ => true) dryRun rsyncOk

/-- The dry-run sanitization in `db_dump` (line 98):
`[arg if not arg.startswith('-p') else '-p *****' for arg in dump_args]`.
Python's `str.startswith` is prefix testing on the code points, embedded here
via `List.isPrefixOf` on `String.data`. -/
def pyStartswith (s pre : String) : Bool :=
  pre.data.isPrefixOf s.data

/-- The `dump_args` list built by `db_dump` (lines 79–86); the password is
interpolated as `f'-p{dbpass}'`, and `--verbose` is appended when `verbose`. -/
def dumpArgs (dbname dbuser dbpass : String) (verbose : Bool) : List String :=
  ["mysqldump", "-u", dbuser, "-p" ++ dbpass,
   "--single-transaction", "--skip-lock-tables",
   "--max_allowed_packet=100M", "--quick", "--databases", dbname] ++
    (if verbose then ["--verbose"] else [])

/-- `sanitized_args`: every argument beginning with `-p` is replaced by the
fixed string `-p *****` before the dry-run command line is logged. -/
def sanitizeArgs (args : List String) : List String :=
  args.map fun arg => if pyStartswith arg "-p" then "-p *****" else arg

/-! ## Submodule sync: `MoodleBackupManager.git_clone`
    (source: `modules/moodle_backup.py`, lines 148–177) -/

/-- The submodule-sync counters of `MoodleBackupManager`
(`submodules_success`, `submodules_failed`, `failed_submodules`),
initialised to `0`/`0`/`[]` in `__init__`. -/
structure SubmoduleCounts where
  submodulesSuccess : ℕ
  submodulesFailed : ℕ
  failedSubmodules : List String
deriving DecidableEq, Repr

/-- The counters as initialised in `MoodleBackupManager.__init__`. -/
def submoduleCountsInit : SubmoduleCounts :=
  { submodulesSuccess := 0, submodulesFailed := 0, failedSubmodules := [] }

/-- One iteration of the per-submodule loop: a submodule is a
`(path, updated)` pair where `updated` is whether its individual
`git submodule update --init --recursive --remote -- <path>` invocation
exited successfully.  On success the success counter is incremented; on
`CalledProcessError` the failure counter is incremented and the path is
appended to the failed list, and the loop continues either way. -/
def submoduleSyncStep (c : SubmoduleCounts) (sub : String × Bool) :
    SubmoduleCounts :=
  if sub.2 then
    { c with submodulesSuccess := c.submodulesSuccess + 1 }
  else
    { c with
        submodulesFailed := c.submodulesFailed + 1
        failedSubmodules := c.failedSubmodules ++ [sub.1] }

/-- The whole per-submodule loop, starting from the constructor's counters. -/
def submoduleSync (subs : List (String × Bool)) : SubmoduleCounts :=
  subs.foldl submoduleSyncStep submoduleCountsInit

/-- Whether the aggregate summary line
`Submodule sync complete: .../... succeeded, .../... failed` is logged:
the source logs it exactly when `total > 0`. -/
def submoduleSummaryLogged (c : SubmoduleCounts) : Bool :=
  decide (0 < c.submodulesSuccess + c.submodulesFailed)

/-- Completion of the enclosing `git_clone` call after the submodule loop:
the source has no conditional abort on the counters — it unconditionally
falls through to writing `config.php`, `chown`, the `Finished git clone
process` log and `self.runtime_clone = int(time.time() - start)`; there is no
failure flag for the clone at all.  The pair returned is
(`runtime_clone` assigned, clone marked failed). -/
def gitCloneCompletion (subs : List (String × Bool)) : Bool × Bool :=
  (fun _ => (true, false)) (submoduleSync subs)

/-! ## ProgressTracker: `SystemMonitor.monitor_dump_progress`
    (source: `modules/system_monitor.py`, lines 48–93) -/

/-- Loop-carried locals of `monitor_dump_progress`: `last_size`,
`stagnation_time`, `last_log_time` (initialised `0`, `0`, `0`). -/
structure ProgressState where
  lastSize : ℤ
  stagnationTime : ℚ
  lastLogTime : ℚ
deriving DecidableEq, Repr

/-- Locals before the first loop iteration. -/
def progressInit : ProgressState :=
  { lastSize := 0, stagnationTime := 0, lastLogTime := 0 }

/-- Log events of a single `monitor_dump_progress` iteration. -/
inductive ProgressEvent : Type
  | stallWarning (stagnationTime : ℚ)  -- `... hasn't changed for N seconds. Possible stall?`
  | progressLog                         -- `Database dump progress: ...`
deriving DecidableEq, Repr

/-- One iteration of the `monitor_dump_progress` loop, parametrised like
the source by `check_interval`, `log_interval` and `stagnation_threshold`
(defaults 5, 60, 60) and fed the observation of this poll: whether the dump
file exists, its current size, and the current wall-clock time `now`.  When
the file does not exist the iteration does nothing.  When the size is
unchanged, `stagnation_time` grows by `check_interval` and a stall warning is
emitted only if it has reached `stagnation_threshold` and at least
`log_interval` has passed since the last log; any growth resets
`stagnation_time` to zero and may emit a progress log instead.  Both kinds of
log update the shared `last_log_time`. -/
def progressStep (checkInterval logInterval stagnationThreshold : ℚ)
    (s : ProgressState) (fileExists : Bool) (currentSize : ℤ) (now : ℚ) :
    ProgressState × List ProgressEvent :=
  if fileExists then
    if currentSize = s.lastSize then
      -- `stagnation_time += check_interval`, then the threshold test
      if stagnationThreshold ≤ s.stagnationTime + checkInterval ∧
          logInterval ≤ now - s.lastLogTime then
        ({ lastSize := currentSize,
           stagnationTime := s.stagnationTime + checkInterval,
           lastLogTime := now },
         [ProgressEvent.stallWarning (s.stagnationTime + checkInterval)])
      else
        ({ lastSize := currentSize,
           stagnationTime := s.stagnationTime + checkInterval,
           lastLogTime := s.lastLogTime }, [])
    else
      if logInterval ≤ now - s.lastLogTime then
        ({ lastSize := currentSize, stagnationTime := 0, lastLogTime := now },
         [ProgressEvent.progressLog])
      else
        ({ lastSize := currentSize, stagnationTime := 0,
           lastLogTime := s.lastLogTime }, [])
  else (s, [])

/-- Is an event the stagnation warning? -/
def isStallWarning : ProgressEvent → Bool
  | ProgressEvent.stallWarning _ => true
  | _ => false

/-- Did an iteration emit the stagnation warning? -/
def hasStallWarning (evs : List ProgressEvent) : Bool :=
  evs.any isStallWarning

/-! ## Upgrade health gate: `MoodleBackupManager.run_moodle_check` and
    `ApplicationSetup.confirm`
    (source: `modules/moodle_backup.py` lines 339–390,
    `modules/application_setup.py` lines 86–101) -/

/-- Whitespace for Python's `str.strip()` (the ASCII whitespace characters
relevant to captured process output). -/
def pyIsSpace (c : Char) : Bool :=
  c = ' ' || c = '\t' || c = '\n' || c = '\x0d' || c = '\x0b' || c = '\x0c'

/-- Python's `str.strip()` on code points: drop whitespace from both ends. -/
def pyStrip (l : List Char) : List Char :=
  (((l.dropWhile pyIsSpace).reverse).dropWhile pyIsSpace).reverse

/-- Python's `str.lower()` on code points (ASCII case mapping, which is all
the source compares against). -/
def pyLower (l : List Char) : List Char :=
  l.map fun c => if 'A' ≤ c ∧ c ≤ 'Z' then Char.ofNat (c.toNat + 32) else c

/-- Substring containment of `sub` in `l` (Python's `sub in s`). -/
def charListContains (sub : List Char) : List Char → Bool
  | [] => sub.isEmpty
  | c :: t => sub.isPrefixOf (c :: t) || charListContains sub t

/-- Python's `in` operator on strings: substring containment on code points. -/
def pyContains (s sub : String) : Bool :=
  charListContains sub.data s.data

/-- `formatted_message` as built by `run_moodle_check` from the check
command's stripped stdout (lines 359–362), as a code-point list. -/
def formatChecksMessage (stdout : String) : List Char :=
  if charListContains "\n".data (pyStrip stdout.data) then
    "checks.php returned:\n".data ++ pyStrip stdout.data
  else
    "checks.php returned: ".data ++ pyStrip stdout.data

/-- The severity scan of `run_moodle_check` (lines 364–372): the `error` flag
is set exactly when the formatted message contains `CRITICAL` or `ERROR`.
(A `WARNING`/`OK`/unclassified message only changes the log level; a nonzero
exit code of `checks.php` is logged critical but does not set `error`.) -/
def checksSeverityError (formattedMessage : List Char) : Bool :=
  charListContains "CRITICAL".data formattedMessage ||
    charListContains "ERROR".data formattedMessage

/-- Result of running `ApplicationSetup.confirm`'s body against a finite
stream of user input lines.  Python's `confirm` can return `True`, `False`
or `None` (the `None` arises from `valid_responses.get(default.lower(),
False)` when `default` is `'c'`); entering `c` calls `exit(1)`; and with no
acceptable input the `while True` loop keeps blocking on `input()`. -/
inductive ConfirmOutcome : Type
  | returned (value : Option Bool)
  | canceled
  | blockedOnInput
deriving DecidableEq, Repr

/-- Shallow embedding of the body of `ApplicationSetup.confirm(question,
default='')`: loop over the input lines; a stripped, lower-cased input of
`y`/`n` returns `True`/`False`, `c` exits with code 1, and an empty input
falls back to the default's entry of `valid_responses` (missing keys give
`False`) when a default is set; anything else re-prompts.  Note the body has
no timeout parameter and no timeout mechanism: with no input it blocks on
`input()` forever. -/
def confirmRun (defaultAnswer : String) : List String → ConfirmOutcome
  | [] => ConfirmOutcome.blockedOnInput
  | line :: rest =>
    let userInput := pyLower (pyStrip line.data)
    if userInput = "y".data then ConfirmOutcome.returned (some true)
    else if userInput = "n".data then ConfirmOutcome.returned (some false)
    else if userInput = "c".data then ConfirmOutcome.canceled
    else if defaultAnswer.data ≠ [] ∧ userInput = [] then
      ConfirmOutcome.returned
        (if pyLower defaultAnswer.data = "y".data then some true
         else if pyLower defaultAnswer.data = "n".data then some false
         else if pyLower defaultAnswer.data = "c".data then none
         else some false)
    else confirmRun defaultAnswer rest

/-- `ApplicationSetup.confirm` is declared `def confirm(question, default='')`:
it accepts at most two positional arguments. -/
def confirmPositionalParamCount : ℕ := 2

/-- The gate at the end of `run_moodle_check` invokes
`ApplicationSetup.confirm(question, auto_continue_choice, timeout)` with
three positional arguments (line 385). -/
def gateConfirmCallArgCount : ℕ := 3

/-- Calling a Python function with more positional arguments than its
parameter list accepts raises `TypeError` before the body runs; otherwise
the body executes. -/
def callConfirm (argCount : ℕ) (defaultAnswer : String)
    (inputs : List String) : Except Unit ConfirmOutcome :=
  if confirmPositionalParamCount < argCount then Except.error ()
  else Except.ok (confirmRun defaultAnswer inputs)

/-- What the gate in `run_moodle_check` does overall. -/
inductive GateOutcome : Type
  | continued        -- falls through to the final logging
  | halted           -- `sys.exit(1)` (or `exit(1)` inside `confirm`)
  | blockedOnInput   -- `confirm` still waiting on `input()`
  | raisedTypeError  -- the `ApplicationSetup.confirm(...)` call itself raised
deriving DecidableEq, Repr

/-- The gate of `run_moodle_check` (lines 381–387): when the `error` flag is
set and `force_continue` is off, it logs the pause message and evaluates
`ApplicationSetup.confirm(question, auto_continue_choice, timeout)` — the
phase selects `auto_continue_choice` (`"n"` before the upgrade, `"y"` after).
A falsy return (`False` or `None`) leads to `sys.exit(1)`.  Otherwise the
gate is skipped and the run continues. -/
def runMoodleCheckGate (error forceContinue beforeUpgrade : Bool)
    (inputs : List String) : GateOutcome :=
  let autoContinueChoice := if beforeUpgrade then "n" else "y"
  if error ∧ ¬forceContinue then
    match callConfirm gateConfirmCallArgCount autoContinueChoice inputs with
    | Except.error _ => GateOutcome.raisedTypeError
    | Except.ok (ConfirmOutcome.returned (some true)) => GateOutcome.continued
    | Except.ok (ConfirmOutcome.returned _) => GateOutcome.halted
    | Except.ok ConfirmOutcome.canceled => GateOutcome.halted
    | Except.ok ConfirmOutcome.blockedOnInput => GateOutcome.blockedOnInput
  else GateOutcome.continued

/-! ## Concrete schedules used to exhibit possible executions -/

/-- A possible execution of the three-way plan: the backup-and-clone thread
runs backup over `[0,10]` then clone over `[10,20]`, while the dump thread
runs over `[0,20]`. -/
def demoSchedAllThree : Sched where
  start o := match o with
    | Op.backup => 0
    | Op.clone => 10
    | Op.dump => 0
  stop o := match o with
    | Op.backup => 10
    | Op.clone => 20
    | Op.dump => 20

/-- A possible execution of the dump-and-clone plan: dump over `[0,20]`,
clone over `[0,15]` on its own thread. -/
def demoSchedDumpClone : Sched where
  start o := match o with
    | Op.backup => 0
    | Op.clone => 0
    | Op.dump => 0
  stop o := match o with
    | Op.backup => 0
    | Op.clone => 15
    | Op.dump => 20

/-!
# Theorems
-/

/-! ### Helper lemmas -/

/-- Every element produced by the dry-run sanitization that still begins with
`-p` is the literal replacement `-p *****`. -/
theorem sanitizeArgs_no_password (args : List String) :
    ∀ arg ∈ sanitizeArgs args, pyStartswith arg "-p" = true → arg = "-p *****" := by
  intro arg harg
  rcases List.mem_map.mp harg with ⟨a, _, rfl⟩
  by_cases h : pyStartswith a "-p" = true
  · rw [if_pos h]; intro _; rfl
  · rw [if_neg h]; intro hpre; exact absurd hpre h

/-- Prepending text to a string yields a string that `startswith` that text. -/
theorem pyStartswith_append (pre p : String) :
    pyStartswith (pre ++ p) pre = true := by
  simp only [pyStartswith, String.data_append]
  exact List.isPrefixOf_iff_prefix.mpr (List.prefix_append _ _)

/-- `demoSchedAllThree` is a possible execution of the three-way plan. -/
theorem demoSchedAllThree_valid :
    validSched (plan true true true) demoSchedAllThree := by
  constructor
  · intro t ht
    simp [plan] at ht
    rcases ht with rfl | rfl <;> simp [threadOk, demoSchedAllThree]
  · intro o; cases o <;> norm_num [demoSchedAllThree]

/-- `demoSchedDumpClone` is a possible execution of the dump-and-clone plan. -/
theorem demoSchedDumpClone_valid :
    validSched (plan false true true) demoSchedDumpClone := by
  constructor
  · intro t ht
    simp [plan] at ht
    rcases ht with rfl | rfl <;> simp [threadOk, demoSchedDumpClone]
  · intro o; cases o <;> norm_num [demoSchedDumpClone]

/-! ### C1 — backup and clone never run concurrently -/

/-- **C1.** For every selection of operations that includes both the directory
backup and the git clone, every execution of `main`'s concurrency plan runs
the backup to completion before the clone starts (they always share one
thread, with backup first); moreover, when the dump is also selected it runs
on a second thread and its interval may overlap the backup's (and, in the
dump-and-clone selection, the clone's). -/
theorem c1_backup_completes_before_clone :
    (∀ (dirBackup dbDump gitClone : Bool) (s : Sched),
        dirBackup = true → gitClone = true →
        validSched (plan dirBackup dbDump gitClone) s →
        s.stop Op.backup ≤ s.start Op.clone) ∧
    (∃ s : Sched, validSched (plan true true true) s ∧ overlaps s Op.dump Op.backup) ∧
    (∃ s : Sched, validSched (plan false true true) s ∧ overlaps s Op.dump Op.clone) := by
  refine ⟨?_, ⟨demoSchedAllThree, demoSchedAllThree_valid,
                by constructor <;> norm_num [demoSchedAllThree]⟩,
          ⟨demoSchedDumpClone, demoSchedDumpClone_valid,
                by constructor <;> norm_num [demoSchedDumpClone]⟩⟩
  intro dirBackup dbDump gitClone s hb hc hv
  subst hb; subst hc
  cases dbDump with
  | false =>
    have ht := hv.1 [Op.backup, Op.clone] (by decide)
    simpa [threadOk] using ht
  | true =>
    have ht := hv.1 [Op.backup, Op.clone] (by decide)
    simpa [threadOk] using ht

/-- Witness for C1: on the concrete three-way schedule `demoSchedAllThree`,
which is a valid execution of the three-way plan, the theorem yields that the
backup stops no later than the clone starts. -/
theorem c1_backup_completes_before_clone_witness :
    validSched (plan true true true) demoSchedAllThree ∧
    demoSchedAllThree.stop Op.backup ≤ demoSchedAllThree.start Op.clone :=
  ⟨demoSchedAllThree_valid,
   c1_backup_completes_before_clone.1 true true true demoSchedAllThree rfl rfl
     demoSchedAllThree_valid⟩

/-! ### C6 — the "time saved" report -/

/-- **C6.** The "Time saved with multithreading" figure reported by `main`
equals the sum of the recorded per-operation runtimes (unset runtimes count
as 0) minus the total wall-clock runtime — on the spec's scenario, runtimes
120, 90 and 150 with wall clock 160 yield 200 — and the figure is reported
only when the `multithreading` flag is set, which happens exactly when the
concurrency plan has two threads. -/
theorem c6_time_saved_report :
    (timeSavedReport true true true (some 120) (some 90) (some 150) 160 = some 200) ∧
    (∀ (dirBackup dbDump gitClone : Bool)
        (runtimeBackup runtimeDump runtimeClone : Option ℤ) (runtime saved : ℤ),
        timeSavedReport dirBackup dbDump gitClone
          runtimeBackup runtimeDump runtimeClone runtime = some saved →
        multithreading dirBackup dbDump gitClone = true ∧
        saved = normRuntime runtimeBackup + normRuntime runtimeDump +
                normRuntime runtimeClone - runtime) ∧
    (∀ dirBackup dbDump gitClone : Bool,
        multithreading dirBackup dbDump gitClone = true ↔
          2 ≤ (plan dirBackup dbDump gitClone).length) := by
  refine ⟨by decide, ?_, by decide⟩
  intro dirBackup dbDump gitClone rb rd rc rt saved h
  unfold timeSavedReport at h
  by_cases hm : multithreading dirBackup dbDump gitClone = true
  · rw [if_pos hm] at h
    exact ⟨hm, (Option.some_injective ℤ h).symm⟩
  · rw [if_neg hm] at h
    exact absurd h (by simp)

/-- Witness for C6: the selection backup + dump (clone unselected) with a
recorded dump runtime of 30, no other recorded runtimes, and wall clock 10
reports a saved time, and the theorem forces it to be `0 + 30 + 0 - 10`. -/
theorem c6_time_saved_report_witness :
    multithreading true true false = true ∧
    (20 : ℤ) = normRuntime none + normRuntime (some 30) + normRuntime none - 10 :=
  c6_time_saved_report.2.1 true true false none (some 30) none 10 20 (by decide)

/-! ### C10 — the dry-run log is independent of the database password -/

/-- **C10.** For every pair of database passwords, the sanitized argument list
logged by `db_dump` in dry-run mode is identical — so the logged command line
carries no information about the password — and every sanitized argument
still beginning with `-p` is the fixed string `-p *****`. -/
theorem c10_dry_run_password_never_logged :
    ∀ (dbname dbuser pass1 pass2 : String) (verbose : Bool),
      sanitizeArgs (dumpArgs dbname dbuser pass1 verbose) =
        sanitizeArgs (dumpArgs dbname dbuser pass2 verbose) ∧
      ∀ arg ∈ sanitizeArgs (dumpArgs dbname dbuser pass1 verbose),
        pyStartswith arg "-p" = true → arg = "-p *****" := by
  intro dbname dbuser pass1 pass2 verbose
  refine ⟨?_, sanitizeArgs_no_password _⟩
  simp [sanitizeArgs, dumpArgs, pyStartswith_append]

/-- Witness for C10: with concrete credentials, the sanitized dry-run
argument lists for passwords `hunter2` and the empty string coincide. -/
theorem c10_dry_run_password_never_logged_witness :
    sanitizeArgs (dumpArgs "moodle" "root" "hunter2" true) =
      sanitizeArgs (dumpArgs "moodle" "root" "" true) :=
  (c10_dry_run_password_never_logged "moodle" "root" "hunter2" "" true).1

/-! ### C2 — outcome recording per operation -/

/-- **C2 counterexample.** When the dump's external call raises
(`CalledProcessError` from `mysqldump`, not in dry run), `db_dump` returns
early and `self.runtime_dump` is never assigned: the run records no outcome
at all for the dump — contradicting the claim that every selected operation
produces exactly one recorded outcome with its success/failure status set
even when the underlying call throws. -/
theorem c2_dump_failure_drops_outcome_counterexample :
    dbDumpRecordsRuntime false DumpOutcome.processError = false ∧
    (dbDumpTrace false DumpOutcome.processError).count DumpEvent.setRuntimeDump = 0 := by
  decide

/-- **C2 (amended).** The run records at most one runtime per operation and
no success/failure status: `dir_backup` assigns `runtime_backup` on every
path (rsync failures are caught and only logged), while `db_dump` assigns
`runtime_dump` exactly on the paths where nothing was raised (dry run or a
successful `mysqldump`); on the dump's error paths the failure is only
logged and nothing is recorded. -/
theorem c2_amended_runtime_recorded_only_without_exception :
    (∀ dryRun rsyncOk : Bool, dirBackupRecordsRuntime dryRun rsyncOk = true) ∧
    (∀ (dryRun : Bool) (o : DumpOutcome),
        dbDumpRecordsRuntime dryRun o = true ↔
          (dryRun = true ∨ o = DumpOutcome.ok)) ∧
    (∀ (dryRun : Bool) (o : DumpOutcome),
        (dbDumpTrace dryRun o).count DumpEvent.setRuntimeDump ≤ 1) := by
  refine ⟨fun _ _ => rfl, ?_, ?_⟩
  · intro d o; cases d <;> cases o <;> decide
  · intro d o; cases d <;> cases o <;> decide

/-- Witness for the amended C2: instantiated at a dry run with a failing
process outcome, where the runtime is still recorded. -/
theorem c2_amended_runtime_recorded_only_without_exception_witness :
    dbDumpRecordsRuntime true DumpOutcome.processError = true ↔
      (true = true ∨ DumpOutcome.processError = DumpOutcome.ok) :=
  c2_amended_runtime_recorded_only_without_exception.2.1 true DumpOutcome.processError

/-! ### C3 — the upgrade health gate -/

/-- **C3.** On health-check output containing `CRITICAL` with force-continue
off, the gate of `run_moodle_check` does not prompt with a 60-second timeout
as claimed: it evaluates `ApplicationSetup.confirm(question,
auto_continue_choice, timeout)` — three positional arguments against
`confirm`'s two parameters — so the call raises `TypeError` (in either
phase, whatever the operator would have typed); `confirm` itself has no
timeout mechanism at all. -/
theorem c3_health_gate_raises_type_error :
    checksSeverityError (formatChecksMessage "CRITICAL: disk space low") = true ∧
    confirmPositionalParamCount < gateConfirmCallArgCount ∧
    (∀ inputs : List String,
        runMoodleCheckGate true false true inputs = GateOutcome.raisedTypeError) ∧
    (∀ inputs : List String,
        runMoodleCheckGate true false false inputs = GateOutcome.raisedTypeError) := by
  exact ⟨by decide, by decide, fun _ => rfl, fun _ => rfl⟩

/-! ### C9 — monitor threads are scoped to the dump -/

/-- **C9.** On every path of `db_dump` — dry run, successful dump, the dump
file failing to open, the `mysqldump` subprocess failing — the trace starts
the monitoring threads first, and the `finally` clause sets the stop event
and joins the memory and progress threads exactly once, before the function
returns: after the join, at most the `runtime_dump` assignment remains.  The
monitor threads therefore never outlive the dump call. -/
theorem c9_monitor_threads_never_outlive_dump :
    ∀ (dryRun : Bool) (o : DumpOutcome),
      ((dbDumpTrace dryRun o).count DumpEvent.setStopEvent = 1 ∧
       (dbDumpTrace dryRun o).count DumpEvent.joinMemoryThread = 1 ∧
       (dbDumpTrace dryRun o).count DumpEvent.joinDumpThread = 1) ∧
      ∃ body tail,
        dbDumpTrace dryRun o =
          DumpEvent.startMonitoring :: (body ++ stopMonitoringEvents ++ tail) ∧
        (∀ e ∈ body, e ∉ stopMonitoringEvents ∧ e ≠ DumpEvent.startMonitoring) ∧
        (∀ e ∈ tail, e = DumpEvent.setRuntimeDump) := by
  intro dryRun o
  refine ⟨by cases dryRun <;> cases o <;> decide, ?_⟩
  cases dryRun with
  | true =>
    exact ⟨[DumpEvent.logDryRunCommand], [DumpEvent.setRuntimeDump],
           by cases o <;> decide, by decide, by decide⟩
  | false =>
    cases o with
    | ok =>
      exact ⟨[DumpEvent.runMysqldump, DumpEvent.logDumpSaved],
             [DumpEvent.setRuntimeDump], by decide, by decide, by decide⟩
    | ioError =>
      exact ⟨[DumpEvent.logFileError], [], by decide, by decide, by decide⟩
    | processError =>
      exact ⟨[DumpEvent.runMysqldump, DumpEvent.logProcessError], [],
             by decide, by decide, by decide⟩

/-- Witness for C9: the decomposition instantiated on the failing-subprocess
path. -/
theorem c9_monitor_threads_never_outlive_dump_witness :
    ((dbDumpTrace false DumpOutcome.processError).count DumpEvent.setStopEvent = 1 ∧
     (dbDumpTrace false DumpOutcome.processError).count DumpEvent.joinMemoryThread = 1 ∧
     (dbDumpTrace false DumpOutcome.processError).count DumpEvent.joinDumpThread = 1) ∧
    ∃ body tail,
      dbDumpTrace false DumpOutcome.processError =
        DumpEvent.startMonitoring :: (body ++ stopMonitoringEvents ++ tail) ∧
      (∀ e ∈ body, e ∉ stopMonitoringEvents ∧ e ≠ DumpEvent.startMonitoring) ∧
      (∀ e ∈ tail, e = DumpEvent.setRuntimeDump) :=
  c9_monitor_threads_never_outlive_dump false DumpOutcome.processError

/-! ### C7 — submodule sync is failure tolerant -/

/-- Closed form of the per-submodule loop from an arbitrary starting value of
the counters. -/
theorem submoduleSync_foldl (subs : List (String × Bool)) :
    ∀ c : SubmoduleCounts,
      subs.foldl submoduleSyncStep c =
        { submodulesSuccess :=
            c.submodulesSuccess + (subs.filter fun sub => sub.2).length
          submodulesFailed :=
            c.submodulesFailed + (subs.filter fun sub => !sub.2).length
          failedSubmodules :=
            c.failedSubmodules ++ (subs.filter fun sub => !sub.2).map Prod.fst } := by
  induction subs with
  | nil => intro c; simp
  | cons head t ih =>
    intro c
    by_cases h : head.2 = true <;>
      simp [List.filter_cons, submoduleSyncStep, h, ih] <;> omega

/-- The updated and the failed submodules together exhaust the submodule
set. -/
theorem submodule_filter_lengths (subs : List (String × Bool)) :
    (subs.filter fun sub => sub.2).length +
      (subs.filter fun sub => !sub.2).length = subs.length := by
  induction subs with
  | nil => rfl
  | cons head t ih =>
    by_cases h : head.2 = true <;> simp [List.filter_cons, h] <;> omega

/-- **C7.** For a submodule set of size `N` of which `k` updates fail, the
per-submodule loop of `git_clone` — one update invocation per submodule,
continuing past every failure — ends with success counter `N − k`, failure
counter `k`, exactly the failed paths collected in order, and (when the set
is nonempty) the aggregate summary logged; the enclosing clone still runs to
completion (`runtime_clone` is assigned) and carries no failure mark. -/
theorem c7_submodule_sync_failure_tolerant :
    ∀ subs : List (String × Bool),
      (submoduleSync subs).submodulesSuccess =
        (subs.filter fun sub => sub.2).length ∧
      (submoduleSync subs).submodulesFailed =
        (subs.filter fun sub => !sub.2).length ∧
      (submoduleSync subs).submodulesSuccess =
        subs.length - (submoduleSync subs).submodulesFailed ∧
      (submoduleSync subs).failedSubmodules =
        (subs.filter fun sub => !sub.2).map Prod.fst ∧
      (gitCloneCompletion subs).1 = true ∧
      (gitCloneCompletion subs).2 = false ∧
      (0 < subs.length → submoduleSummaryLogged (submoduleSync subs) = true) := by
  intro subs
  have h := submoduleSync_foldl subs submoduleCountsInit
  have hlen := submodule_filter_lengths subs
  unfold submoduleSync
  rw [h]
  refine ⟨by simp [submoduleCountsInit], by simp [submoduleCountsInit],
          by simp [submoduleCountsInit]; omega, by simp [submoduleCountsInit],
          rfl, rfl, ?_⟩
  intro hpos
  simp [submoduleSummaryLogged, submoduleCountsInit]
  omega

/-- Witness for C7: two submodules of which one fails give counters 1/1, the
failed path collected, and the summary logged. -/
theorem c7_submodule_sync_failure_tolerant_witness :
    (submoduleSync [("mod/assign", true), ("mod/quiz", false)]).submodulesSuccess = 1 ∧
    (submoduleSync [("mod/assign", true), ("mod/quiz", false)]).submodulesFailed = 1 ∧
    (submoduleSync [("mod/assign", true), ("mod/quiz", false)]).failedSubmodules =
      ["mod/quiz"] ∧
    submoduleSummaryLogged
      (submoduleSync [("mod/assign", true), ("mod/quiz", false)]) = true :=
  ⟨by decide, by decide, by decide,
   (c7_submodule_sync_failure_tolerant
      [("mod/assign", true), ("mod/quiz", false)]).2.2.2.2.2.2 (by decide)⟩

/-! ### C8 — dump-progress stagnation accounting -/

/-- While less than `log_interval` has passed since the last logged line, an
iteration of `monitor_dump_progress` cannot emit the stagnation warning. -/
theorem progressStep_no_stall_of_recent_log (s : ProgressState)
    (currentSize : ℤ) (now : ℚ) (h : now - s.lastLogTime < 60) :
    hasStallWarning (progressStep 5 60 60 s true currentSize now).2 = false := by
  unfold progressStep
  rw [if_pos rfl]
  split_ifs with h1 h2 h3
  · exact absurd h2.2 (by linarith)
  · rfl
  · simp [hasStallWarning, isStallWarning]
  · rfl

/-- **C8.** With the default parameters (poll every 5 s, 60 s stagnation
threshold, 60 s log interval): in every iteration of the
`monitor_dump_progress` loop in which the dump file exists, an unchanged
size increases the stagnation counter by the poll interval and the
stagnation warning fires exactly when the increased counter has reached the
60 s threshold and at least 60 s have passed since the last logged line; any
growth resets the counter to zero; and a fired warning refreshes the last-log
time, so no further warning can fire within the next 60 s. -/
theorem c8_stagnation_counter_and_warning_rate :
    ∀ (s : ProgressState) (currentSize : ℤ) (now : ℚ),
      (currentSize = s.lastSize →
        (progressStep 5 60 60 s true currentSize now).1.stagnationTime =
          s.stagnationTime + 5 ∧
        (hasStallWarning (progressStep 5 60 60 s true currentSize now).2 = true ↔
          (60 ≤ s.stagnationTime + 5 ∧ 60 ≤ now - s.lastLogTime))) ∧
      (currentSize ≠ s.lastSize →
        (progressStep 5 60 60 s true currentSize now).1.stagnationTime = 0) ∧
      (hasStallWarning (progressStep 5 60 60 s true currentSize now).2 = true →
        (progressStep 5 60 60 s true currentSize now).1.lastLogTime = now ∧
        ∀ (laterSize : ℤ) (later : ℚ), later - now < 60 →
          hasStallWarning
            (progressStep 5 60 60
              (progressStep 5 60 60 s true currentSize now).1
              true laterSize later).2 = false) := by
  intro s currentSize now
  refine ⟨?_, ?_, ?_⟩
  · intro heq
    unfold progressStep
    rw [if_pos rfl, if_pos heq]
    split_ifs with h2
    · exact ⟨rfl, by simp [hasStallWarning, isStallWarning, h2]⟩
    · exact ⟨rfl, by simp [hasStallWarning, isStallWarning, h2]⟩
  · intro hne
    unfold progressStep
    rw [if_pos rfl, if_neg hne]
    split_ifs <;> rfl
  · intro hwarn
    have hlog : (progressStep 5 60 60 s true currentSize now).1.lastLogTime = now := by
      unfold progressStep at hwarn ⊢
      rw [if_pos rfl] at hwarn ⊢
      split_ifs at hwarn ⊢ with h1 h2 h3
      · rfl
      · simp [hasStallWarning, isStallWarning] at hwarn
      · simp [hasStallWarning, isStallWarning] at hwarn
      · simp [hasStallWarning, isStallWarning] at hwarn
    refine ⟨hlog, ?_⟩
    intro laterSize later hlater
    exact progressStep_no_stall_of_recent_log _ _ _ (by rw [hlog]; linarith)

/-- Witness for C8: a poll at counter 55 with an unchanged size of a stale
file, 70 s after the last log, pushes the counter to 60 and fires the
warning. -/
theorem c8_stagnation_counter_and_warning_rate_witness :
    (progressStep 5 60 60 ⟨100, 55, 0⟩ true 100 70).1.stagnationTime = 55 + 5 ∧
    (hasStallWarning (progressStep 5 60 60 ⟨100, 55, 0⟩ true 100 70).2 = true ↔
      (60 ≤ (55 : ℚ) + 5 ∧ 60 ≤ (70 : ℚ) - 0)) :=
  (c8_stagnation_counter_and_warning_rate ⟨100, 55, 0⟩ 100 70).1 rfl

/-! ### C4 — critical-memory entry and recovery logging -/

set_option maxHeartbeats 1000000

/-- Per-poll count of "entering critical" logs: the critical branch of
`monitor_memory_usage` has no first-entry guard, so it logs on every poll
with `available < 250`, and no other branch emits this log. -/
theorem memStep_countP_enter (s : MemState) (f a : ℤ) :
    (memStep s f a).2.countP isEnterCritical = if a < 250 then 1 else 0 := by
  dsimp only [memStep]
  split_ifs <;>
    simp_all [List.countP_append, List.countP_cons, isEnterCritical]

/-- Per-poll count of "recovered from critical" logs: emitted exactly when
the previous poll left the critical flag set and `available` is back at or
above 250. -/
theorem memStep_countP_recovery (s : MemState) (f a : ℤ) :
    (memStep s f a).2.countP isRecoveryFromCritical =
      if a < 250 then 0
      else if s.previousCritical = true ∧ 250 ≤ a then 1 else 0 := by
  dsimp only [memStep]
  split_ifs <;>
    simp_all [List.countP_append, List.countP_cons, isRecoveryFromCritical]

/-- The critical flag after a poll records exactly whether the poll saw
`available < 250`. -/
theorem memStep_previousCritical (s : MemState) (f a : ℤ) :
    (memStep s f a).1.previousCritical = decide (a < 250) := by
  dsimp only [memStep]
  split_ifs <;> simp_all

set_option maxHeartbeats 200000

/-- Running the monitor over a concatenated trace runs the second part from
the state the first part ends in, concatenating the logs. -/
theorem memRun_append (l1 l2 : List (ℤ × ℤ)) :
    ∀ s : MemState,
      memRun s (l1 ++ l2) =
        ((memRun (memRun s l1).1 l2).1,
         (memRun s l1).2 ++ (memRun (memRun s l1).1 l2).2) := by
  induction l1 with
  | nil => intro s; simp [memRun]
  | cons x t ih => intro s; simp [memRun, ih]

/-- Over `n` consecutive polls below the 250 MB threshold the monitor logs
the critical warning `n` times and no recovery, leaving the critical flag set
when `n > 0`. -/
theorem memRun_replicate_low (f a : ℤ) (h : a < 250) :
    ∀ (n : ℕ) (s : MemState),
      ((memRun s (List.replicate n (f, a))).2.countP isEnterCritical = n) ∧
      ((memRun s (List.replicate n (f, a))).2.countP isRecoveryFromCritical = 0) ∧
      ((memRun s (List.replicate n (f, a))).1.previousCritical =
        if n = 0 then s.previousCritical else true) := by
  intro n
  induction n with
  | zero => intro s; simp [memRun]
  | succ m ih =>
    intro s
    have he := memStep_countP_enter s f a
    have hr := memStep_countP_recovery s f a
    have hp := memStep_previousCritical s f a
    rw [if_pos h] at he hr
    rcases ih (memStep s f a).1 with ⟨ihe, ihr, ihp⟩
    refine ⟨?_, ?_, ?_⟩
    · simp [List.replicate_succ, memRun, List.countP_append, he, ihe,
        Nat.add_comm]
    · simp [List.replicate_succ, memRun, List.countP_append, hr, ihr]
    · simp only [List.replicate_succ, memRun, ihp]
      rcases Nat.eq_zero_or_pos m with hm | hm
      · simp [hm, hp, h]
      · simp [Nat.pos_iff_ne_zero.mp hm]

/-- **C4 counterexample.** A dip sustained for two polls (available 100 MB
twice, free 50 MB) followed by a recovery poll (available 300 MB) makes
`monitor_memory_usage` log the entering-critical message **twice** — once per
poll while sustained, because the critical branch has no first-entry guard —
refuting the claim that exactly one entering-critical log is emitted; the
recovery is logged once. -/
theorem c4_single_entry_log_counterexample :
    ((memRun memInit [(50, 100), (50, 100), (100, 300)]).2.countP
        isEnterCritical = 2) ∧
    ¬((memRun memInit [(50, 100), (50, 100), (100, 300)]).2.countP
        isEnterCritical = 1) ∧
    ((memRun memInit [(50, 100), (50, 100), (100, 300)]).2.countP
        isRecoveryFromCritical = 1) := by
  decide

/-- **C4 (amended).** For a single dip of available memory below the critical
threshold (250 MB) sustained for `n ≥ 1` polls and followed by a recovery
poll at or above it, the memory monitor emits the entering-critical log once
**per poll** while the dip is sustained — `n` times in total, not once — and
exactly one recovery log. -/
theorem c4_amended_critical_log_per_poll :
    ∀ (n : ℕ) (f aLow aHigh : ℤ), 1 ≤ n → aLow < 250 → 250 ≤ aHigh →
      ((memRun memInit
          (List.replicate n (f, aLow) ++ [(f, aHigh)])).2.countP
          isEnterCritical = n) ∧
      ((memRun memInit
          (List.replicate n (f, aLow) ++ [(f, aHigh)])).2.countP
          isRecoveryFromCritical = 1) := by
  intro n f aLow aHigh hn hl hh
  rcases memRun_replicate_low f aLow hl n memInit with ⟨hre, hrr, hrp⟩
  have hp1 : (memRun memInit (List.replicate n (f, aLow))).1.previousCritical
      = true := by
    rw [hrp]; simp [Nat.pos_iff_ne_zero.mp hn]
  have he := memStep_countP_enter
    (memRun memInit (List.replicate n (f, aLow))).1 f aHigh
  have hr := memStep_countP_recovery
    (memRun memInit (List.replicate n (f, aLow))).1 f aHigh
  rw [if_neg (by omega)] at he
  rw [if_neg (by omega), if_pos ⟨hp1, hh⟩] at hr
  rw [memRun_append]
  constructor
  · simp [memRun, List.countP_append, hre, he]
  · simp [memRun, List.countP_append, hrr, hr]

/-- Witness for the amended C4: a dip of 200 MB available sustained for two
polls then recovery at 400 MB gives two entering-critical logs and one
recovery log. -/
theorem c4_amended_critical_log_per_poll_witness :
    ((memRun memInit
        (List.replicate 2 ((100 : ℤ), (200 : ℤ)) ++ [(100, 400)])).2.countP
        isEnterCritical = 2) ∧
    ((memRun memInit
        (List.replicate 2 ((100 : ℤ), (200 : ℤ)) ++ [(100, 400)])).2.countP
        isRecoveryFromCritical = 1) :=
  c4_amended_critical_log_per_poll 2 100 200 400 (by norm_num) (by norm_num)
    (by norm_num)

/-! ### C5 — the poll cadence -/

/-- **C5.** The sleep interval `monitor_memory_usage` actually uses is *not*
state-dependent in the claimed way: the trailing `else: sleep_time = 5` of
the final `if`/`elif`/`else` chain overwrites the values assigned by the
earlier blocks, so from a fresh state a critical sample (available 100 MB,
free 50 MB) sleeps 5 s instead of the claimed 0.5 s, a warning sample
(available 300 MB) sleeps 5 s instead of 1 s, a low-free-critical sample
(free 50 MB, available 600 MB) sleeps 2 s instead of 0.5 s; only the
low-free-warning (2 s) and normal (5 s) figures survive. -/
theorem c5_sleep_interval_overwritten :
    ((memStep memInit 50 100).1.sleepTime = 5 ∧
      (memStep memInit 50 100).1.sleepTime ≠ 1 / 2) ∧
    ((memStep memInit 300 300).1.sleepTime = 5 ∧
      (memStep memInit 300 300).1.sleepTime ≠ 1) ∧
    ((memStep memInit 50 600).1.sleepTime = 2 ∧
      (memStep memInit 50 600).1.sleepTime ≠ 1 / 2) ∧
    (memStep memInit 200 600).1.sleepTime = 2 ∧
    (memStep memInit 1000 1000).1.sleepTime = 5 := by
  refine ⟨⟨by decide, ?_⟩, ⟨by decide, ?_⟩, ⟨by decide, ?_⟩, by decide, by decide⟩
  · rw [(by decide : (memStep memInit 50 100).1.sleepTime = 5)]; norm_num
  · rw [(by decide : (memStep memInit 300 300).1.sleepTime = 5)]; norm_num
  · rw [(by decide : (memStep memInit 50 600).1.sleepTime = 2)]; norm_num

end MoodleUpdater
